import Mathlib

/-!
Verification of the credentials-provider jobs of
`secrets-manager-custom-credentials-providers`.

The development shallowly embeds the parts of the Go source that the
verified properties are about:

* the JFrog access-token provider saga
  (`jfrog-access-token-provider-go/internal/job`): dispatcher, create path
  with compensation, delete path, traced as a list of externally visible
  events (orchestrator calls, backend calls, log lines) plus an exit code;
* the resty retry policy configured in the providers
  (`SetRetryCount(RETRY_COUNT)` with the retry condition
  `err != nil || r.StatusCode() >= http.StatusTooManyRequests`);
* the IAM identity-services wrapper
  (`ibmcloud-iam-user-apikey-provider-go/identity_services_wrapper`):
  `unlockApiKey`, `isApiKeyNotFound`, `DeleteApiKey`;
* the IAM provider helper `getApiKeyName`;
* the Postgres provider
  (`ibmcloud-databases-postgres-provider-go/internal/job`):
  `createReadOnlyRole`, `deleteReadOnlyRole` against a transactional
  database model, and the `uint32ToString` / `stringToUint32` pair.

Go strings that are manipulated byte-wise by the source are modelled as
`List Nat` (byte values); strings that are only concatenated (error
messages, trace payloads) are modelled as Lean `String`.
-/

/-! ### Go byte strings -/

/-- A Go string viewed as its bytes, for code that slices or parses it. -/
abbrev GoStr := List Nat

/-- Go slice expression `s[i:]` where `i` is a (possibly negative) `int`:
defined when `0 ≤ i ≤ len(s)`, a bounds panic otherwise (`none`). -/
def goSliceFrom (s : GoStr) (i : Int) : Option GoStr :=
  if 0 ≤ i ∧ i ≤ (s.length : Int) then some (s.drop i.toNat) else none

/-! ### `uint32ToString` / `stringToUint32`
(`postgres_credentials_provider.go`)

`uint32ToString` is `strconv.FormatUint(uint64(value), 10)`: the decimal
digit string of the value. `stringToUint32` is
`strconv.ParseUint(value, 10, 32)`: it fails on an empty string, on any
non-digit byte, and on values that do not fit in 32 bits. -/

/-- Decimal digit bytes of `n`, most significant first: the result of
`strconv.FormatUint(n, 10)`. -/
def toDecChars (n : Nat) : GoStr :=
  if n < 10 then [48 + n]
  else toDecChars (n / 10) ++ [48 + n % 10]
decreasing_by
  exact Nat.div_lt_self (by omega) (by omega)

/-- Function `uint32ToString` converts a uint32 to a string
(`strconv.FormatUint(uint64(value), 10)`). -/
def uint32ToString (value : Nat) : GoStr := toDecChars value

/-- ASCII decimal digit test, as `strconv.ParseUint` applies per byte. -/
def isDigitByte (b : Nat) : Bool := 48 ≤ b && b ≤ 57

/-- Function `stringToUint32` converts a string to a uint32
(`strconv.ParseUint(value, 10, 32)`): `none` models the error return. -/
def stringToUint32 (value : GoStr) : Option Nat :=
  if value.isEmpty then none
  else if value.all isDigitByte then
    let n := value.foldl (fun acc b => acc * 10 + (b - 48)) 0
    if n < 2 ^ 32 then some n else none
  else none

/-! ### `getApiKeyName` (`credentials_provider.go`, IAM provider)

The source is
`fmt.Sprintf("%s-%s", config.SM_SECRET_NAME,
config.SM_SECRET_TASK_ID[len(config.SM_SECRET_TASK_ID)-6:])`:
a direct byte slice of the task id from index `len - 6` (Go `int`
arithmetic, so negative for short ids, which panics). -/

/-- Function `getApiKeyName`: secret name, a hyphen (byte 45), and the last six
bytes of the task id; `none` models the slice-bounds panic. -/
def getApiKeyName (secretName taskId : GoStr) : Option GoStr :=
  (goSliceFrom taskId ((taskId.length : Int) - 6)).map
    (fun suffix => secretName ++ 45 :: suffix)

/-! ### Retry policy (`resty_client.go` / `slack_credentials_provider.go`)

Both retrying providers build their HTTP client as
`resty.New().SetRetryCount(RETRY_COUNT)...AddRetryCondition(func(r,err)
bool { return err != nil || r.StatusCode() >= http.StatusTooManyRequests })`.
Resty performs an initial attempt and then, while the retry condition
holds on the latest attempt, up to `RetryCount` further attempts. -/

/-- Fixed retry count from the provider sources. -/
def RETRY_COUNT : Nat := 3

/-- Result of one HTTP attempt: an optional transport-level error and the
HTTP status code of the response (meaningful when there is no error). -/
structure AttemptResult where
  transportErr : Option String
  status : Nat
deriving DecidableEq

/-- The retry condition registered with `AddRetryCondition`:
`err != nil || r.StatusCode() >= http.StatusTooManyRequests` (429). -/
def retryCondition (r : AttemptResult) : Bool :=
  r.transportErr.isSome || 429 ≤ r.status

/-- Number of attempts the configured resty client performs, given the
outcome of the `i`-th attempt as `responses i` and `retriesLeft` retries
remaining after attempt `i`. -/
def attemptsFrom (retriesLeft : Nat) (responses : Nat → AttemptResult) (i : Nat) : Nat :=
  match retriesLeft with
  | 0 => 1
  | n + 1 => if retryCondition (responses i) then 1 + attemptsFrom n responses (i + 1) else 1

/-- Total number of attempts one backend call through the configured
client performs. -/
def attemptsMade (responses : Nat → AttemptResult) : Nat :=
  attemptsFrom RETRY_COUNT responses 0

/-! ### IAM identity-services wrapper (`identity_services_wrapper.go`) -/

/-- The `core.DetailedResponse` facts `isApiKeyNotFound` inspects: the
HTTP status code, and whether the result map decodes to exactly one error
with code `not_found`. -/
structure IamDetailedResponse where
  status : Nat
  notFoundBody : Bool
deriving DecidableEq

/-- One call to `client.UnlockAPIKey`: the returned error (if any) and the
detailed response (if any). -/
structure UnlockCall where
  err : Option String
  resp : Option IamDetailedResponse
deriving DecidableEq

/-- Predicate `isApiKeyNotFound`: the response is non-nil, has status 404, and its
body decodes to a single `not_found` error. -/
def isApiKeyNotFound (resp : Option IamDetailedResponse) : Bool :=
  match resp with
  | some r => r.status == 404 && r.notFoundBody
  | none => false

/-- Function `unlockApiKey`: `ok true` when the key was found and unlocked
(no error, status 204), `ok false` when IAM reports the key does not
exist, `error` otherwise (mirroring the branch order of the source). -/
def unlockApiKey (c : UnlockCall) : Except String Bool :=
  if c.err.isNone && (match c.resp with | some r => r.status == 204 | none => false) then
    Except.ok true
  else if isApiKeyNotFound c.resp then
    Except.ok false
  else
    match c.err with
    | some m => Except.error m
    | none => Except.error "unexpected response from IAM when attempting to unlock API key."

/-- Function `DeleteApiKey`: unlock first; a key that is not found is a successful
no-op; otherwise the outcome is that of `client.DeleteAPIKey`
(`deleteErr`). `none` models the nil error return. -/
def DeleteApiKey (unlock : UnlockCall) (deleteErr : Option String) : Option String :=
  match unlockApiKey unlock with
  | Except.error m => some m
  | Except.ok false => none
  | Except.ok true => deleteErr

/-! ### Postgres role backend (`postgres_credentials_provider.go`)

The database is modelled by the set of committed roles (`pg_roles`):
pairs of oid and role name. Each statement a transaction executes is
recorded in an operation list; outcomes of statements whose failure is
environmental (connection loss, permission, duplicate name) come from an
oracle, while the existence `SELECT`s read the actual state. Work done
inside a transaction becomes visible only at `COMMIT`; every early return
runs the deferred `tx.Rollback`. -/

/-- Committed database state: the rows of `pg_roles` as (oid, rolname). -/
structure PGState where
  roles : List (Nat × String)
deriving DecidableEq

/-- SQL statements executed by the two role operations. -/
inductive PGOp where
  | beginTx
  | createRoleStmt (name : String)
  | selectOid (name : String)
  | grantUsage (schema name : String)
  | grantSelect (schema name : String)
  | selectRolname (oid : Nat)
  | revokeAll (schema name : String)
  | dropRole (name : String)
  | commitTx
  | rollbackTx
deriving DecidableEq

/-- Oracle for the failable steps of `createReadOnlyRole`, plus the oid
the database assigns to the freshly created role. -/
structure PGCreateEnv where
  beginErr : Option String
  createRoleErr : Option String
  selectOidErr : Option String
  newOid : Nat
  grantUsageErr : Option String
  grantSelectErr : Option String
  commitErr : Option String
deriving DecidableEq

/-- Function `createReadOnlyRole`: one transaction that creates the role,
reads its oid, grants usage on the schema and select on all its tables,
and commits only after both grants succeeded; any earlier failure returns
a wrapped error and the deferred rollback leaves the committed state
untouched. Returns (state after the run, executed statements, result). -/
def createReadOnlyRole (env : PGCreateEnv) (st : PGState)
    (roleName _password schemaName : String) :
    PGState × List PGOp × Except String Nat :=
  match env.beginErr with
  | some m => (st, [PGOp.beginTx], Except.error ("cannot begin transaction: " ++ m))
  | none =>
    match env.createRoleErr with
    | some m =>
        (st, [PGOp.beginTx, PGOp.createRoleStmt roleName, PGOp.rollbackTx],
         Except.error ("cannot create role with login password. error: " ++ m))
    | none =>
      match env.selectOidErr with
      | some m =>
          (st, [PGOp.beginTx, PGOp.createRoleStmt roleName, PGOp.selectOid roleName,
                PGOp.rollbackTx],
           Except.error ("cannot retrieve role oid. error: " ++ m))
      | none =>
        let roleOID := env.newOid
        match env.grantUsageErr with
        | some m =>
            (st, [PGOp.beginTx, PGOp.createRoleStmt roleName, PGOp.selectOid roleName,
                  PGOp.grantUsage schemaName roleName, PGOp.rollbackTx],
             Except.error ("cannot grant role: " ++ toString roleOID ++ " usage on schema: "
               ++ schemaName ++ ". error: " ++ m))
        | none =>
          match env.grantSelectErr with
          | some m =>
              (st, [PGOp.beginTx, PGOp.createRoleStmt roleName, PGOp.selectOid roleName,
                    PGOp.grantUsage schemaName roleName, PGOp.grantSelect schemaName roleName,
                    PGOp.rollbackTx],
               Except.error ("cannot grant role: " ++ toString roleOID
                 ++ " select on all tables in schema " ++ schemaName ++ ". error: " ++ m))
          | none =>
            match env.commitErr with
            | some m =>
                (st, [PGOp.beginTx, PGOp.createRoleStmt roleName, PGOp.selectOid roleName,
                      PGOp.grantUsage schemaName roleName, PGOp.grantSelect schemaName roleName,
                      PGOp.commitTx, PGOp.rollbackTx],
                 Except.error ("cannot commit transaction: " ++ m))
            | none =>
                (⟨(roleOID, roleName) :: st.roles⟩,
                 [PGOp.beginTx, PGOp.createRoleStmt roleName, PGOp.selectOid roleName,
                  PGOp.grantUsage schemaName roleName, PGOp.grantSelect schemaName roleName,
                  PGOp.commitTx, PGOp.rollbackTx],
                 Except.ok roleOID)

/-- Row of `pg_roles` with the given oid, as read by
`SELECT rolname FROM pg_roles WHERE oid = $1`. -/
def lookupRolname (st : PGState) (oid : Nat) : Option String :=
  (st.roles.find? (fun p => p.1 == oid)).map (fun p => p.2)

/-- Oracle for the failable steps of `deleteReadOnlyRole`. -/
structure PGDeleteEnv where
  beginErr : Option String
  selectErr : Option String
  revokeErr : Option String
  dropErr : Option String
  commitErr : Option String
deriving DecidableEq

/-- Function `deleteReadOnlyRole`: in one transaction, look the role name
up by oid (a missing row is a logged no-op success), revoke its
privileges, drop it, and commit. Returns (state after the run, executed
statements, error if any). -/
def deleteReadOnlyRole (env : PGDeleteEnv) (st : PGState)
    (roleOID : Nat) (schemaName : String) :
    PGState × List PGOp × Option String :=
  match env.beginErr with
  | some m => (st, [PGOp.beginTx], some ("cannot begin transaction: " ++ m))
  | none =>
    match env.selectErr with
    | some m =>
        (st, [PGOp.beginTx, PGOp.selectRolname roleOID, PGOp.rollbackTx],
         some ("error checking role with oid " ++ toString roleOID ++ " existence: " ++ m))
    | none =>
      match lookupRolname st roleOID with
      | none =>
          (st, [PGOp.beginTx, PGOp.selectRolname roleOID, PGOp.rollbackTx], none)
      | some roleName =>
        match env.revokeErr with
        | some m =>
            (st, [PGOp.beginTx, PGOp.selectRolname roleOID,
                  PGOp.revokeAll schemaName roleName, PGOp.rollbackTx],
             some ("cannot revoke privileges for role with oid: " ++ toString roleOID
               ++ ". error: " ++ m))
        | none =>
          match env.dropErr with
          | some m =>
              (st, [PGOp.beginTx, PGOp.selectRolname roleOID,
                    PGOp.revokeAll schemaName roleName, PGOp.dropRole roleName,
                    PGOp.rollbackTx],
               some ("cannot drop role with oid: " ++ toString roleOID ++ ". error: " ++ m))
          | none =>
            match env.commitErr with
            | some m =>
                (st, [PGOp.beginTx, PGOp.selectRolname roleOID,
                      PGOp.revokeAll schemaName roleName, PGOp.dropRole roleName,
                      PGOp.commitTx, PGOp.rollbackTx],
                 some ("cannot commit transaction: " ++ m))
            | none =>
                (⟨st.roles.filter (fun p => !(p.2 == roleName))⟩,
                 [PGOp.beginTx, PGOp.selectRolname roleOID,
                  PGOp.revokeAll schemaName roleName, PGOp.dropRole roleName,
                  PGOp.commitTx, PGOp.rollbackTx],
                 none)

/-! ### JFrog access-token provider (`resty_client.go`, package `job`)

One process run is traced as the list of externally visible events it
performs, in order, together with the exit code (`os.Exit` argument; 0
for the normal return of `Run`). Outcomes of the external calls are
supplied by an environment oracle, one field per call site. -/

/-- Externally visible events of one provider run. -/
inductive Ev where
  | getSecret
  | backendPost
  | backendDelete (id : String)
  | revokeInvoked (id : String)
  | reportCreated
  | reportDeleted
  | reportFailed (code : String) (desc : String)
  | logError (msg : String)
  | logInfo (msg : String)
deriving DecidableEq

/-- Trace of one run. -/
abbrev Trace := List Ev

/-- Result of a helper function in the run: a value, a returned Go error,
or an `os.Exit` performed inside the helper. -/
inductive Res (A : Type) where
  | ok (a : A)
  | err (msg : String)
  | exit (code : Nat)
deriving DecidableEq

/-- Outcome of one `GetSecret` call for the JFrog login secret. -/
inductive FetchOutcome where
  | okSecret (payload : String)
  | apiKeyNotFound (msg : String)
  | errOther (msg : String)
  | wrongType (typeName : String)
deriving DecidableEq

/-- An HTTP response from JFrog as the provider consumes it: status code,
the message `extractErrorMessageFromJFrogErrorResponse` yields on its
body, and the result of unmarshalling the body as token data. -/
structure JFrogResp where
  status : Nat
  errorMessage : String
  tokenData : Except String (String × String)

/-- Outcome of one resty `Post`/`Delete` call (after internal retries):
a transport-level error or a response. -/
inductive CallResult where
  | transportErr (msg : String)
  | response (r : JFrogResp)

/-- Oracle for the external calls of one JFrog provider run, one field
per call site. -/
structure JFrogEnv where
  fetchCreate : FetchOutcome
  createCall : CallResult
  reportCreatedErr : Option String
  fetchRevoke : FetchOutcome
  revokeCall : CallResult
  reportDeletedErr : Option String
  reportFailedCallErr : Option String

/-- Per-run configuration fields the modelled paths read. -/
structure Config where
  SM_ACTION : String
  SM_LOGIN_SECRET_ID : String
  SM_CREDENTIALS_ID : String

/-- Error code constants of the JFrog provider (declared in the provider
config source, referenced by the dispatcher and paths). -/
def Err10000 : String := "Err10000"

/-- Error code used when the backend create fails. -/
def Err10001 : String := "Err10001"

/-- Error code used when the delete-path revoke fails. -/
def Err10002 : String := "Err10002"

/-- Function `updateTaskAboutErrorAndExit`: one `UpdateTaskAboutError`
call, a log line for its own outcome, then `os.Exit(1)`. -/
def updateTaskAboutErrorAndExit (code desc : String) (callErr : Option String) :
    Trace × Nat :=
  (Ev.reportFailed code desc ::
    (match callErr with
     | some e =>
         [Ev.logError ("cannot update task about error with code: " ++ code
           ++ " and description: " ++ desc ++ ". returned error: " ++ e)]
     | none =>
         [Ev.logInfo ("updated task about error with code: " ++ code
           ++ " and description: " ++ desc ++ ". task updated.")]),
   1)

/-- Function `fetchJFrogServiceCredentials`: one `GetSecret` call; an
error mentioning a missing Secrets Manager API key is logged and exits
the process directly; any other error or a non-arbitrary secret type is
returned to the caller. -/
def fetchJFrogServiceCredentials (o : FetchOutcome) (loginSecretId : String) :
    Trace × Res String :=
  match o with
  | FetchOutcome.okSecret payload => ([Ev.getSecret], Res.ok payload)
  | FetchOutcome.apiKeyNotFound m =>
      ([Ev.getSecret, Ev.logError ("cannot call the secrets manager service: " ++ m)],
       Res.exit 1)
  | FetchOutcome.errOther m => ([Ev.getSecret], Res.err m)
  | FetchOutcome.wrongType t =>
      ([Ev.getSecret],
       Res.err ("get secret id: " ++ loginSecretId ++ " returned unexpected secret type: "
         ++ t ++ ", expected arbitrary type"))

/-- Function `createJFrogAccessToken`: fetch the login secret, `Post` the
create request, fail on transport errors, error statuses (resty
`IsError`, status at least 400) and unmarshal failures; on success return
the access token and the token id. -/
def createJFrogAccessToken (env : JFrogEnv) (cfg : Config) :
    Trace × Res (String × String) :=
  match fetchJFrogServiceCredentials env.fetchCreate cfg.SM_LOGIN_SECRET_ID with
  | (tr, Res.exit c) => (tr, Res.exit c)
  | (tr, Res.err m) => (tr, Res.err m)
  | (tr, Res.ok _payload) =>
    match env.createCall with
    | CallResult.transportErr m =>
        (tr ++ [Ev.backendPost], Res.err ("client returned an error: " ++ m))
    | CallResult.response r =>
      if 400 ≤ r.status then
        (tr ++ [Ev.backendPost],
         Res.err ("JFrog returned an error: Status: " ++ toString r.status
           ++ ". Error: " ++ r.errorMessage))
      else
        match r.tokenData with
        | Except.error m =>
            (tr ++ [Ev.backendPost], Res.err ("error unmarshaling token data: " ++ m))
        | Except.ok (accessToken, tokenId) =>
            (tr ++ [Ev.backendPost,
                    Ev.logInfo ("Access Token successfully created. Credentials ID: "
                      ++ tokenId)],
             Res.ok (accessToken, tokenId))

/-- Function `revokeJFrogAccessToken`: fetch the login secret again, then
`Delete` the token with id `credId`; transport errors and error statuses
are returned as errors. -/
def revokeJFrogAccessToken (env : JFrogEnv) (cfg : Config) (credId : String) :
    Trace × Res Unit :=
  match fetchJFrogServiceCredentials env.fetchRevoke cfg.SM_LOGIN_SECRET_ID with
  | (tr, Res.exit c) => (Ev.revokeInvoked credId :: tr, Res.exit c)
  | (tr, Res.err m) => (Ev.revokeInvoked credId :: tr, Res.err m)
  | (tr, Res.ok _payload) =>
    match env.revokeCall with
    | CallResult.transportErr m =>
        (Ev.revokeInvoked credId :: tr ++ [Ev.backendDelete credId],
         Res.err ("Resty client returned an error: " ++ m))
    | CallResult.response r =>
      if 400 ≤ r.status then
        (Ev.revokeInvoked credId :: tr ++ [Ev.backendDelete credId],
         Res.err ("JFrog returned an error: Status: " ++ toString r.status
           ++ ". Error: " ++ r.errorMessage))
      else
        (Ev.revokeInvoked credId :: tr ++
           [Ev.backendDelete credId,
            Ev.logInfo ("Token: " ++ credId ++ " is successfully revoked")],
         Res.ok ())

/-- Function `generateCredentials` (create path): create the token; on
failure report and exit; on success report the creation, and if that
report fails revoke the just-created token, log the combined outcome and
exit 1 without any further report call. -/
def generateCredentials (env : JFrogEnv) (cfg : Config) : Trace × Nat :=
  match createJFrogAccessToken env cfg with
  | (tr, Res.exit c) => (tr, c)
  | (tr, Res.err m) =>
      let (tr2, c) := updateTaskAboutErrorAndExit Err10001 ("error: " ++ m)
        env.reportFailedCallErr
      (tr ++ Ev.logError ("error generating credentials: " ++ m) :: tr2, c)
  | (tr, Res.ok (_accessToken, tokenId)) =>
    match env.reportCreatedErr with
    | some e =>
        let s1 := "cannot update task: " ++ e
        match revokeJFrogAccessToken env cfg tokenId with
        | (trR, Res.exit c) => (tr ++ Ev.reportCreated :: trR, c)
        | (trR, Res.err m2) =>
            (tr ++ Ev.reportCreated :: trR ++
               [Ev.logError (s1 ++ "cannot revoke the JFrog access token with token id: "
                 ++ tokenId ++ ". error: " ++ m2)],
             1)
        | (trR, Res.ok _) =>
            (tr ++ Ev.reportCreated :: trR ++
               [Ev.logError (s1 ++ "JFrog access token with token id: " ++ tokenId
                 ++ " was revoked. ")],
             1)
    | none =>
        (tr ++ [Ev.reportCreated,
                Ev.logInfo ("task successfully updated: JFrog access token with token id: "
                  ++ tokenId ++ " was created")],
         0)

/-- Function `deleteCredentials` (delete path): revoke the token carried
in the config; on failure report and exit; on success report the
deletion, a failing deletion report being logged and fatal. -/
def deleteCredentials (env : JFrogEnv) (cfg : Config) : Trace × Nat :=
  match revokeJFrogAccessToken env cfg cfg.SM_CREDENTIALS_ID with
  | (tr, Res.exit c) => (tr, c)
  | (tr, Res.err m) =>
      let (tr2, c) := updateTaskAboutErrorAndExit Err10002
        ("error revoking credentials with credentials id: " ++ cfg.SM_CREDENTIALS_ID
          ++ ": " ++ m)
        env.reportFailedCallErr
      (tr ++ Ev.logError ("error revoking credentials: " ++ m) :: tr2, c)
  | (tr, Res.ok _) =>
    match env.reportDeletedErr with
    | some e =>
        (tr ++ [Ev.reportDeleted,
                Ev.logError ("cannot update task about revoked credentials with credentials id: "
                  ++ cfg.SM_CREDENTIALS_ID ++ ". error: " ++ e ++ ". ")],
         1)
    | none =>
        (tr ++ [Ev.reportDeleted,
                Ev.logInfo ("task successfully updated: credentials with credentials id: "
                  ++ cfg.SM_CREDENTIALS_ID ++ " was revoked")],
         0)

/-- The `SecretTask_Type_CreateCredentials` constant of the secrets
manager SDK. -/
def SecretTask_Type_CreateCredentials : String := "create_credentials"

/-- The `SecretTask_Type_DeleteCredentials` constant of the secrets
manager SDK. -/
def SecretTask_Type_DeleteCredentials : String := "delete_credentials"

/-- Function `Run` (action dispatcher): dispatch on `SM_ACTION` to the
create or delete path; any other action value is reported once with code
`Err10000` and the process exits 1 with no backend interaction. -/
def Run (env : JFrogEnv) (cfg : Config) : Trace × Nat :=
  if cfg.SM_ACTION = SecretTask_Type_CreateCredentials then
    generateCredentials env cfg
  else if cfg.SM_ACTION = SecretTask_Type_DeleteCredentials then
    deleteCredentials env cfg
  else
    updateTaskAboutErrorAndExit Err10000 ("unknown action: " ++ cfg.SM_ACTION)
      env.reportFailedCallErr

/-! ### Trace observations -/

/-- Number of `report_failed` (`UpdateTaskAboutError`) calls in a trace. -/
def countReportFailed (tr : Trace) : Nat :=
  tr.countP (fun e => match e with | Ev.reportFailed _ _ => true | _ => false)

/-- Number of invocations of the backend revoke operation in a trace. -/
def countRevoked (tr : Trace) : Nat :=
  tr.countP (fun e => match e with | Ev.revokeInvoked _ => true | _ => false)

/-- Number of backend create (`Post`) calls in a trace. -/
def countPost (tr : Trace) : Nat :=
  tr.countP (fun e => match e with | Ev.backendPost => true | _ => false)

/-- Number of backend `Delete` calls in a trace. -/
def countDelete (tr : Trace) : Nat :=
  tr.countP (fun e => match e with | Ev.backendDelete _ => true | _ => false)

/-- Number of `GetSecret` calls in a trace. -/
def countGetSecret (tr : Trace) : Nat :=
  tr.countP (fun e => match e with | Ev.getSecret => true | _ => false)

/-- Whether the oracle makes the backend create succeed: login secret
fetched, `Post` answered with a non-error status, body unmarshalled. -/
def createSucceeds (env : JFrogEnv) : Bool :=
  (match env.fetchCreate with | FetchOutcome.okSecret _ => true | _ => false) &&
  (match env.createCall with
   | CallResult.response r => decide (r.status < 400) && r.tokenData.isOk
   | CallResult.transportErr _ => false)

/-! ### Theorems -/

/-- C4: a backend call whose every attempt fails with a transient error
(transport error or status at least 429) is attempted exactly
`RETRY_COUNT + 1 = 4` times by the configured retry policy. -/
theorem retry_bound_transient (responses : Nat → AttemptResult)
    (h : ∀ i, retryCondition (responses i) = true) :
    attemptsMade responses = RETRY_COUNT + 1 ∧ attemptsMade responses = 4 := by
  have : attemptsMade responses = 4 := by
    simp [attemptsMade, RETRY_COUNT, attemptsFrom, h 0, h 1, h 2]
  exact ⟨this, this⟩

/-- Witness for C4: a call always answered with HTTP 503 makes 4
attempts. -/
theorem retry_bound_transient_witness :
    attemptsMade (fun _ => ⟨none, 503⟩) = RETRY_COUNT + 1 ∧
      attemptsMade (fun _ => ⟨none, 503⟩) = 4 :=
  retry_bound_transient (fun _ => ⟨none, 503⟩) (fun _ => rfl)

/-- C5: a backend call answered on its first attempt with a
non-transient failure (no transport error, status below 429, e.g. HTTP
400) is attempted exactly once. -/
theorem no_retry_semantic_rejection (responses : Nat → AttemptResult)
    (h1 : (responses 0).transportErr = none) (h2 : (responses 0).status < 429) :
    attemptsMade responses = 1 := by
  have hc : retryCondition (responses 0) = false := by
    simp [retryCondition, h1]
    omega
  simp [attemptsMade, RETRY_COUNT, attemptsFrom, hc]

/-- Witness for C5: a call answered with HTTP 400 makes one attempt. -/
theorem no_retry_semantic_rejection_witness :
    attemptsMade (fun _ => ⟨none, 400⟩) = 1 :=
  no_retry_semantic_rejection (fun _ => ⟨none, 400⟩) rfl (by decide)

/-- Every byte `toDecChars` emits is an ASCII decimal digit. -/
theorem toDecChars_all_digits (n : Nat) : (toDecChars n).all isDigitByte = true := by
  induction n using Nat.strong_induction_on with
  | _ n ih =>
    rw [toDecChars]
    by_cases h : n < 10
    · simp only [if_pos h, List.all_cons, List.all_nil, Bool.and_true]
      simp only [isDigitByte, Bool.and_eq_true, decide_eq_true_eq]
      omega
    · have hlt : n / 10 < n := Nat.div_lt_self (by omega) (by omega)
      simp only [if_neg h, List.all_append, ih _ hlt, List.all_cons, List.all_nil,
        Bool.and_true, Bool.true_and]
      simp only [isDigitByte, Bool.and_eq_true, decide_eq_true_eq]
      have := Nat.mod_lt n (show 0 < 10 by omega)
      omega

/-- The digit string of a number is never empty. -/
theorem toDecChars_ne_nil (n : Nat) : toDecChars n ≠ [] := by
  rw [toDecChars]
  by_cases h : n < 10
  · simp [h]
  · simp [h]

/-- Folding the parse step over the digit string of `n` starting from
`acc` yields `acc` shifted past those digits plus `n`. -/
theorem toDecChars_foldl (n : Nat) :
    ∀ acc : Nat,
      (toDecChars n).foldl (fun acc b => acc * 10 + (b - 48)) acc =
        acc * 10 ^ (toDecChars n).length + n := by
  induction n using Nat.strong_induction_on with
  | _ n ih =>
    intro acc
    rw [toDecChars]
    by_cases h : n < 10
    · simp only [if_pos h, List.foldl_cons, List.foldl_nil, List.length_cons,
        List.length_nil]
      have : 48 + n - 48 = n := by omega
      rw [this]
      ring
    · have hlt : n / 10 < n := Nat.div_lt_self (by omega) (by omega)
      simp only [if_neg h, List.foldl_append, List.foldl_cons, List.foldl_nil,
        List.length_append, List.length_cons, List.length_nil]
      rw [ih _ hlt acc]
      have h48 : 48 + n % 10 - 48 = n % 10 := by omega
      rw [h48]
      have hdm : n / 10 * 10 + n % 10 = n := by omega
      calc (acc * 10 ^ (toDecChars (n / 10)).length + n / 10) * 10 + n % 10
          = acc * (10 ^ (toDecChars (n / 10)).length * 10) + (n / 10 * 10 + n % 10) := by
            ring
        _ = acc * 10 ^ ((toDecChars (n / 10)).length + 1) + n := by
            rw [hdm, pow_succ]
        _ = acc * 10 ^ ((toDecChars (n / 10)).length + 0 + 1) + n := by
            rw [Nat.add_zero]

/-- C10: for every uint32 value `v`,
`stringToUint32 (uint32ToString v) = v` with no error, so the role oid
the Postgres provider records at create time parses back unchanged on
the delete path. -/
theorem uint32_roundtrip (v : Nat) (h : v < 2 ^ 32) :
    stringToUint32 (uint32ToString v) = some v := by
  unfold stringToUint32 uint32ToString
  have hne : (toDecChars v).isEmpty = false := by
    cases hE : toDecChars v with
    | nil => exact absurd hE (toDecChars_ne_nil v)
    | cons a l => rfl
  rw [hne]
  simp only [Bool.false_eq_true, if_false, toDecChars_all_digits v, if_true]
  have hfold := toDecChars_foldl v 0
  simp only [Nat.zero_mul, Nat.zero_add] at hfold
  rw [hfold, if_pos h]

/-- Witness for C10: the oid 4294967295 (the largest uint32) and 0 both
round-trip. -/
theorem uint32_roundtrip_witness :
    stringToUint32 (uint32ToString 4294967295) = some 4294967295 ∧
      stringToUint32 (uint32ToString 0) = some 0 :=
  ⟨uint32_roundtrip 4294967295 (by decide), uint32_roundtrip 0 (by decide)⟩

/-- C9: the IAM API-key name is defined exactly for task ids of at least
6 bytes, where it is the secret name, a hyphen, and the last 6 bytes of
the task id; for shorter task ids the direct slice is out of range and
the embedding takes its error branch. -/
theorem getApiKeyName_spec :
    (∀ name taskId : GoStr, 6 ≤ taskId.length →
        getApiKeyName name taskId =
          some (name ++ 45 :: taskId.drop (taskId.length - 6)) ∧
        (taskId.drop (taskId.length - 6)).length = 6) ∧
    (∀ name taskId : GoStr, taskId.length < 6 →
        getApiKeyName name taskId = none) := by
  constructor
  · intro name taskId h
    have hcond : 0 ≤ (taskId.length : Int) - 6 ∧
        (taskId.length : Int) - 6 ≤ (taskId.length : Int) := by omega
    have htoNat : ((taskId.length : Int) - 6).toNat = taskId.length - 6 := by omega
    constructor
    · unfold getApiKeyName goSliceFrom
      rw [if_pos hcond, htoNat]
      rfl
    · rw [List.length_drop]
      omega
  · intro name taskId h
    have hcond : ¬ (0 ≤ (taskId.length : Int) - 6 ∧
        (taskId.length : Int) - 6 ≤ (taskId.length : Int)) := by omega
    unfold getApiKeyName goSliceFrom
    rw [if_neg hcond]
    rfl

/-- Witness for C9: a 6-byte task id yields the name, and a 1-byte task
id hits the out-of-range branch. -/
theorem getApiKeyName_spec_witness :
    getApiKeyName [110] [1, 2, 3, 4, 5, 6] = some [110, 45, 1, 2, 3, 4, 5, 6] ∧
      getApiKeyName [110] [1] = none := by
  refine ⟨?_, getApiKeyName_spec.2 [110] [1] (by decide)⟩
  have h := (getApiKeyName_spec.1 [110] [1, 2, 3, 4, 5, 6] (by decide)).1
  simpa using h

/-- Shape of the trace of `updateTaskAboutErrorAndExit`: exactly one
`report_failed` call (carrying the given code and description), no
backend or fetch calls, exit code 1. -/
theorem updateTaskAboutErrorAndExit_shape (code desc : String) (callErr : Option String) :
    countReportFailed (updateTaskAboutErrorAndExit code desc callErr).1 = 1 ∧
    countRevoked (updateTaskAboutErrorAndExit code desc callErr).1 = 0 ∧
    countPost (updateTaskAboutErrorAndExit code desc callErr).1 = 0 ∧
    countDelete (updateTaskAboutErrorAndExit code desc callErr).1 = 0 ∧
    countGetSecret (updateTaskAboutErrorAndExit code desc callErr).1 = 0 ∧
    Ev.reportFailed code desc ∈ (updateTaskAboutErrorAndExit code desc callErr).1 ∧
    (updateTaskAboutErrorAndExit code desc callErr).2 = 1 := by
  cases callErr <;>
    simp [updateTaskAboutErrorAndExit, countReportFailed, countRevoked, countPost,
      countDelete, countGetSecret, List.countP_cons]

/-- C7: a run whose action selector is outside create/delete makes
exactly one `report_failed` call, carrying the dedicated unknown-action
code `Err10000`, makes no backend call and no secret fetch, and exits
non-zero. -/
theorem unknown_action_run (env : JFrogEnv) (cfg : Config)
    (h1 : cfg.SM_ACTION ≠ SecretTask_Type_CreateCredentials)
    (h2 : cfg.SM_ACTION ≠ SecretTask_Type_DeleteCredentials) :
    countReportFailed (Run env cfg).1 = 1 ∧
    Ev.reportFailed Err10000 ("unknown action: " ++ cfg.SM_ACTION) ∈ (Run env cfg).1 ∧
    countPost (Run env cfg).1 = 0 ∧
    countDelete (Run env cfg).1 = 0 ∧
    countRevoked (Run env cfg).1 = 0 ∧
    countGetSecret (Run env cfg).1 = 0 ∧
    (Run env cfg).2 = 1 := by
  have hR : Run env cfg =
      updateTaskAboutErrorAndExit Err10000 ("unknown action: " ++ cfg.SM_ACTION)
        env.reportFailedCallErr := by
    simp [Run, h1, h2]
  rw [hR]
  obtain ⟨a, b, c, d, e, f, g⟩ :=
    updateTaskAboutErrorAndExit_shape Err10000 ("unknown action: " ++ cfg.SM_ACTION)
      env.reportFailedCallErr
  exact ⟨a, f, c, d, b, e, g⟩

/-- Witness for C7: a run with action `rotate_credentials`. -/
theorem unknown_action_run_witness :
    countReportFailed (Run ⟨FetchOutcome.okSecret "p", CallResult.transportErr "x", none,
        FetchOutcome.okSecret "p", CallResult.transportErr "x", none, none⟩
        ⟨"rotate_credentials", "ls", "cid"⟩).1 = 1 ∧
    Ev.reportFailed Err10000 ("unknown action: " ++ "rotate_credentials") ∈
      (Run ⟨FetchOutcome.okSecret "p", CallResult.transportErr "x", none,
        FetchOutcome.okSecret "p", CallResult.transportErr "x", none, none⟩
        ⟨"rotate_credentials", "ls", "cid"⟩).1 ∧
    countPost (Run ⟨FetchOutcome.okSecret "p", CallResult.transportErr "x", none,
        FetchOutcome.okSecret "p", CallResult.transportErr "x", none, none⟩
        ⟨"rotate_credentials", "ls", "cid"⟩).1 = 0 ∧
    countDelete (Run ⟨FetchOutcome.okSecret "p", CallResult.transportErr "x", none,
        FetchOutcome.okSecret "p", CallResult.transportErr "x", none, none⟩
        ⟨"rotate_credentials", "ls", "cid"⟩).1 = 0 ∧
    countRevoked (Run ⟨FetchOutcome.okSecret "p", CallResult.transportErr "x", none,
        FetchOutcome.okSecret "p", CallResult.transportErr "x", none, none⟩
        ⟨"rotate_credentials", "ls", "cid"⟩).1 = 0 ∧
    countGetSecret (Run ⟨FetchOutcome.okSecret "p", CallResult.transportErr "x", none,
        FetchOutcome.okSecret "p", CallResult.transportErr "x", none, none⟩
        ⟨"rotate_credentials", "ls", "cid"⟩).1 = 0 ∧
    (Run ⟨FetchOutcome.okSecret "p", CallResult.transportErr "x", none,
        FetchOutcome.okSecret "p", CallResult.transportErr "x", none, none⟩
        ⟨"rotate_credentials", "ls", "cid"⟩).2 = 1 :=
  unknown_action_run _ _ (by decide) (by decide)

/-- Shape of the trace of `revokeJFrogAccessToken`: the revoke operation
is invoked exactly once (with the given id), and the path itself makes
no report and no create call. -/
theorem revokeJFrogAccessToken_shape (env : JFrogEnv) (cfg : Config) (credId : String) :
    countRevoked (revokeJFrogAccessToken env cfg credId).1 = 1 ∧
    Ev.revokeInvoked credId ∈ (revokeJFrogAccessToken env cfg credId).1 ∧
    countReportFailed (revokeJFrogAccessToken env cfg credId).1 = 0 ∧
    countPost (revokeJFrogAccessToken env cfg credId).1 = 0 := by
  unfold revokeJFrogAccessToken
  cases env.fetchRevoke <;> cases env.revokeCall <;>
    simp [fetchJFrogServiceCredentials, countRevoked, countReportFailed, countPost,
      List.countP_append, List.countP_cons] <;>
    (try split) <;>
    simp [countRevoked, countReportFailed, countPost, List.countP_append, List.countP_cons]

/-- Shape of the trace of `createJFrogAccessToken`: no revoke invocation
and no report call happen inside it, and its result is `ok` exactly when
`createSucceeds` holds of the environment; on `ok` the returned token id
is the one carried in the response body. -/
theorem createJFrogAccessToken_shape (env : JFrogEnv) (cfg : Config) :
    countRevoked (createJFrogAccessToken env cfg).1 = 0 ∧
    countReportFailed (createJFrogAccessToken env cfg).1 = 0 ∧
    countDelete (createJFrogAccessToken env cfg).1 = 0 ∧
    (match (createJFrogAccessToken env cfg).2 with
     | Res.ok _ => createSucceeds env = true
     | _ => createSucceeds env = false) := by
  unfold createJFrogAccessToken
  cases hf : env.fetchCreate <;>
    simp [fetchJFrogServiceCredentials, createSucceeds, hf, countRevoked,
      countReportFailed, countDelete, List.countP_append, List.countP_cons]
  case okSecret p =>
    cases hc : env.createCall with
    | transportErr m =>
        simp [countRevoked, countReportFailed, countDelete, List.countP_append,
          List.countP_cons]
    | response r =>
      by_cases hs : 400 ≤ r.status
      · have hs2 : ¬ r.status < 400 := by omega
        simp [hs, hs2, countRevoked, countReportFailed, countDelete, List.countP_append,
          List.countP_cons]
      · have hs2 : r.status < 400 := by omega
        cases ht : r.tokenData with
        | error m =>
            simp [hs, hs2, ht, countRevoked, countReportFailed, countDelete,
              List.countP_append, List.countP_cons, Except.isOk, Except.toBool]
        | ok p2 =>
            obtain ⟨tok, tid⟩ := p2
            simp [hs, hs2, ht, countRevoked, countReportFailed, countDelete,
              List.countP_append, List.countP_cons, Except.isOk, Except.toBool]

/-- Appending traces adds their revoke counts. -/
theorem countRevoked_append (l1 l2 : Trace) :
    countRevoked (l1 ++ l2) = countRevoked l1 + countRevoked l2 := by
  simp [countRevoked, List.countP_append]

/-- C8: on the create path, the revoke operation is invoked exactly once
when the backend create succeeded and the creation report then failed,
and is never invoked otherwise — in particular never before a confirmed
successful create, never when create fails, and never twice. -/
theorem revoke_only_after_create (env : JFrogEnv) (cfg : Config) :
    countRevoked (generateCredentials env cfg).1 =
      (if createSucceeds env && env.reportCreatedErr.isSome then 1 else 0) := by
  obtain ⟨h1, h2, h3, h4⟩ := createJFrogAccessToken_shape env cfg
  unfold generateCredentials
  cases hc : createJFrogAccessToken env cfg with
  | mk tr res =>
    rw [hc] at h1 h4
    have h1' : countRevoked tr = 0 := h1
    cases res with
    | exit c =>
        have h4' : createSucceeds env = false := h4
        rw [h4']
        simpa using h1'
    | err m =>
        have h4' : createSucceeds env = false := h4
        rw [h4']
        show countRevoked
            ((match updateTaskAboutErrorAndExit Err10001 ("error: " ++ m)
                env.reportFailedCallErr with
              | (tr2, c) =>
                  (tr ++ Ev.logError ("error generating credentials: " ++ m) :: tr2, c))).1 = _
        cases hu : updateTaskAboutErrorAndExit Err10001 ("error: " ++ m)
            env.reportFailedCallErr with
        | mk tr2 c =>
          have u2 : countRevoked tr2 = 0 := by
            have h := (updateTaskAboutErrorAndExit_shape Err10001 ("error: " ++ m)
              env.reportFailedCallErr).2.1
            rw [hu] at h
            exact h
          show countRevoked
              (tr ++ Ev.logError ("error generating credentials: " ++ m) :: tr2) = _
          rw [show (Ev.logError ("error generating credentials: " ++ m) :: tr2)
                = [Ev.logError ("error generating credentials: " ++ m)] ++ tr2 from rfl,
              countRevoked_append, countRevoked_append, h1', u2]
          simp [countRevoked]
    | ok p =>
        obtain ⟨tok, tid⟩ := p
        have h4' : createSucceeds env = true := h4
        rw [h4']
        cases hr : env.reportCreatedErr with
        | none =>
            show countRevoked (tr ++
                [Ev.reportCreated,
                 Ev.logInfo ("task successfully updated: JFrog access token with token id: "
                   ++ tid ++ " was created")]) = _
            rw [countRevoked_append, h1']
            simp [countRevoked]
        | some e =>
            show countRevoked
                ((match revokeJFrogAccessToken env cfg tid with
                  | (trR, Res.exit c) => (tr ++ Ev.reportCreated :: trR, c)
                  | (trR, Res.err m2) =>
                      (tr ++ Ev.reportCreated :: trR ++
                        [Ev.logError ("cannot update task: " ++ e
                          ++ "cannot revoke the JFrog access token with token id: "
                          ++ tid ++ ". error: " ++ m2)], 1)
                  | (trR, Res.ok _) =>
                      (tr ++ Ev.reportCreated :: trR ++
                        [Ev.logError ("cannot update task: " ++ e
                          ++ "JFrog access token with token id: " ++ tid
                          ++ " was revoked. ")], 1))).1 = _
            cases hrv : revokeJFrogAccessToken env cfg tid with
            | mk trR resR =>
              have r1 : countRevoked trR = 1 := by
                have h := (revokeJFrogAccessToken_shape env cfg tid).1
                rw [hrv] at h
                exact h
              cases resR with
              | exit c =>
                  show countRevoked (tr ++ Ev.reportCreated :: trR) = _
                  rw [show (Ev.reportCreated :: trR) = [Ev.reportCreated] ++ trR from rfl,
                      countRevoked_append, countRevoked_append, h1', r1]
                  simp [countRevoked]
              | err m2 =>
                  show countRevoked ((tr ++ Ev.reportCreated :: trR) ++
                      [Ev.logError ("cannot update task: " ++ e
                        ++ "cannot revoke the JFrog access token with token id: "
                        ++ tid ++ ". error: " ++ m2)]) = _
                  rw [countRevoked_append,
                      show (Ev.reportCreated :: trR) = [Ev.reportCreated] ++ trR from rfl,
                      countRevoked_append, countRevoked_append, h1', r1]
                  simp [countRevoked]
              | ok u =>
                  show countRevoked ((tr ++ Ev.reportCreated :: trR) ++
                      [Ev.logError ("cannot update task: " ++ e
                        ++ "JFrog access token with token id: " ++ tid
                        ++ " was revoked. ")]) = _
                  rw [countRevoked_append,
                      show (Ev.reportCreated :: trR) = [Ev.reportCreated] ++ trR from rfl,
                      countRevoked_append, countRevoked_append, h1', r1]
                  simp [countRevoked]

/-- Associativity of string concatenation. -/
theorem strAppend_assoc (a b c : String) : a ++ b ++ c = a ++ (b ++ c) := by
  rcases a with ⟨la⟩
  rcases b with ⟨lb⟩
  rcases c with ⟨lc⟩
  show String.mk ((la ++ lb) ++ lc) = String.mk (la ++ (lb ++ lc))
  rw [List.append_assoc]

/-- Evaluation of `createJFrogAccessToken` when the login fetch and the
create call succeed. -/
theorem createJFrogAccessToken_ok (env : JFrogEnv) (cfg : Config)
    (p : String) (r : JFrogResp) (tok tid : String)
    (hf : env.fetchCreate = FetchOutcome.okSecret p)
    (hc : env.createCall = CallResult.response r)
    (hs : r.status < 400)
    (ht : r.tokenData = Except.ok (tok, tid)) :
    createJFrogAccessToken env cfg =
      ([Ev.getSecret, Ev.backendPost,
        Ev.logInfo ("Access Token successfully created. Credentials ID: " ++ tid)],
       Res.ok (tok, tid)) := by
  have hs' : ¬ 400 ≤ r.status := not_le.mpr hs
  unfold createJFrogAccessToken fetchJFrogServiceCredentials
  rw [hf]
  show (match env.createCall with
    | CallResult.transportErr m =>
        ([Ev.getSecret] ++ [Ev.backendPost], Res.err ("client returned an error: " ++ m))
    | CallResult.response r =>
      if 400 ≤ r.status then
        ([Ev.getSecret] ++ [Ev.backendPost],
         Res.err ("JFrog returned an error: Status: " ++ toString r.status
           ++ ". Error: " ++ r.errorMessage))
      else
        match r.tokenData with
        | Except.error m =>
            ([Ev.getSecret] ++ [Ev.backendPost],
             Res.err ("error unmarshaling token data: " ++ m))
        | Except.ok (accessToken, tokenId) =>
            ([Ev.getSecret] ++ [Ev.backendPost,
              Ev.logInfo ("Access Token successfully created. Credentials ID: "
                ++ tokenId)],
             Res.ok (accessToken, tokenId))) = _
  rw [hc]
  simp [hs', ht]

/-- C1 (amended): when `create` succeeds and the creation report fails,
revoke is invoked exactly once with the identifier returned by create and
the run exits non-zero, but no `report_failed` call is made; the failure
is only logged, and (unless the revoke-path fetch itself hard-exits on a
missing Secrets Manager API key) the logged description starts with the
original report error. -/
theorem compensation_rolls_back_without_report (env : JFrogEnv) (cfg : Config)
    (p : String) (r : JFrogResp) (tok tid e : String)
    (hf : env.fetchCreate = FetchOutcome.okSecret p)
    (hc : env.createCall = CallResult.response r)
    (hs : r.status < 400)
    (ht : r.tokenData = Except.ok (tok, tid))
    (hr : env.reportCreatedErr = some e) :
    countRevoked (generateCredentials env cfg).1 = 1 ∧
    Ev.revokeInvoked tid ∈ (generateCredentials env cfg).1 ∧
    (generateCredentials env cfg).2 = 1 ∧
    countReportFailed (generateCredentials env cfg).1 = 0 ∧
    ((∀ m, env.fetchRevoke ≠ FetchOutcome.apiKeyNotFound m) →
      ∃ rest, Ev.logError (("cannot update task: " ++ e) ++ rest)
        ∈ (generateCredentials env cfg).1) := by
  have hcr := createJFrogAccessToken_ok env cfg p r tok tid hf hc hs ht
  have hgenStep : ∀ trR : Trace, ∀ resR : Res Unit,
      revokeJFrogAccessToken env cfg tid = (trR, resR) →
      generateCredentials env cfg =
        (match (trR, resR) with
          | (trR, Res.exit c) =>
              ([Ev.getSecret, Ev.backendPost,
                Ev.logInfo ("Access Token successfully created. Credentials ID: " ++ tid)]
                ++ Ev.reportCreated :: trR, c)
          | (trR, Res.err m2) =>
              ([Ev.getSecret, Ev.backendPost,
                Ev.logInfo ("Access Token successfully created. Credentials ID: " ++ tid)]
                ++ Ev.reportCreated :: trR ++
                [Ev.logError ("cannot update task: " ++ e
                  ++ "cannot revoke the JFrog access token with token id: "
                  ++ tid ++ ". error: " ++ m2)], 1)
          | (trR, Res.ok _) =>
              ([Ev.getSecret, Ev.backendPost,
                Ev.logInfo ("Access Token successfully created. Credentials ID: " ++ tid)]
                ++ Ev.reportCreated :: trR ++
                [Ev.logError ("cannot update task: " ++ e
                  ++ "JFrog access token with token id: " ++ tid
                  ++ " was revoked. ")], 1)) := by
    intro trR resR hrev
    unfold generateCredentials
    rw [hcr, hr]
    show (match revokeJFrogAccessToken env cfg tid with
          | (trR, Res.exit c) =>
              ([Ev.getSecret, Ev.backendPost,
                Ev.logInfo ("Access Token successfully created. Credentials ID: " ++ tid)]
                ++ Ev.reportCreated :: trR, c)
          | (trR, Res.err m2) =>
              ([Ev.getSecret, Ev.backendPost,
                Ev.logInfo ("Access Token successfully created. Credentials ID: " ++ tid)]
                ++ Ev.reportCreated :: trR ++
                [Ev.logError ("cannot update task: " ++ e
                  ++ "cannot revoke the JFrog access token with token id: "
                  ++ tid ++ ". error: " ++ m2)], 1)
          | (trR, Res.ok _) =>
              ([Ev.getSecret, Ev.backendPost,
                Ev.logInfo ("Access Token successfully created. Credentials ID: " ++ tid)]
                ++ Ev.reportCreated :: trR ++
                [Ev.logError ("cannot update task: " ++ e
                  ++ "JFrog access token with token id: " ++ tid
                  ++ " was revoked. ")], 1)) = _
    rw [hrev]
  cases hfr : env.fetchRevoke with
  | okSecret p2 =>
      cases hrc : env.revokeCall with
      | transportErr m2 =>
          have hrev : revokeJFrogAccessToken env cfg tid =
              ([Ev.revokeInvoked tid, Ev.getSecret, Ev.backendDelete tid],
               Res.err ("Resty client returned an error: " ++ m2)) := by
            unfold revokeJFrogAccessToken fetchJFrogServiceCredentials
            rw [hfr]
            show (match env.revokeCall with
              | CallResult.transportErr m =>
                  ((Ev.revokeInvoked tid :: [Ev.getSecret]) ++ [Ev.backendDelete tid],
                   Res.err ("Resty client returned an error: " ++ m))
              | CallResult.response r2 =>
                if 400 ≤ r2.status then
                  ((Ev.revokeInvoked tid :: [Ev.getSecret]) ++ [Ev.backendDelete tid],
                   Res.err ("JFrog returned an error: Status: " ++ toString r2.status
                     ++ ". Error: " ++ r2.errorMessage))
                else
                  ((Ev.revokeInvoked tid :: [Ev.getSecret]) ++
                    [Ev.backendDelete tid,
                     Ev.logInfo ("Token: " ++ tid ++ " is successfully revoked")],
                   Res.ok ())) = _
            rw [hrc]
            rfl
          have hgen := hgenStep _ _ hrev
          rw [hgen]
          refine ⟨by simp [countRevoked], by simp, rfl, by simp [countReportFailed],
            fun hno => ⟨"cannot revoke the JFrog access token with token id: "
              ++ (tid ++ (". error: " ++ ("Resty client returned an error: " ++ m2))),
              by simp [strAppend_assoc]⟩⟩
      | response r2 =>
          by_cases hs2 : 400 ≤ r2.status
          · have hrev : revokeJFrogAccessToken env cfg tid =
                ([Ev.revokeInvoked tid, Ev.getSecret, Ev.backendDelete tid],
                 Res.err ("JFrog returned an error: Status: " ++ toString r2.status
                   ++ ". Error: " ++ r2.errorMessage)) := by
              unfold revokeJFrogAccessToken fetchJFrogServiceCredentials
              rw [hfr]
              show (match env.revokeCall with
                | CallResult.transportErr m =>
                    ((Ev.revokeInvoked tid :: [Ev.getSecret]) ++ [Ev.backendDelete tid],
                     Res.err ("Resty client returned an error: " ++ m))
                | CallResult.response r3 =>
                  if 400 ≤ r3.status then
                    ((Ev.revokeInvoked tid :: [Ev.getSecret]) ++ [Ev.backendDelete tid],
                     Res.err ("JFrog returned an error: Status: " ++ toString r3.status
                       ++ ". Error: " ++ r3.errorMessage))
                  else
                    ((Ev.revokeInvoked tid :: [Ev.getSecret]) ++
                      [Ev.backendDelete tid,
                       Ev.logInfo ("Token: " ++ tid ++ " is successfully revoked")],
                     Res.ok ())) = _
              rw [hrc]
              show (if 400 ≤ r2.status then
                  ([Ev.revokeInvoked tid, Ev.getSecret] ++ [Ev.backendDelete tid],
                   Res.err ("JFrog returned an error: Status: " ++ toString r2.status
                     ++ ". Error: " ++ r2.errorMessage))
                else
                  ([Ev.revokeInvoked tid, Ev.getSecret] ++
                    [Ev.backendDelete tid,
                     Ev.logInfo ("Token: " ++ tid ++ " is successfully revoked")],
                   Res.ok ())) = _
              rw [if_pos hs2]
              rfl
            have hgen := hgenStep _ _ hrev
            rw [hgen]
            refine ⟨by simp [countRevoked], by simp, rfl, by simp [countReportFailed],
              fun hno => ⟨"cannot revoke the JFrog access token with token id: "
                ++ (tid ++ (". error: " ++ ("JFrog returned an error: Status: "
                  ++ (toString r2.status ++ (". Error: " ++ r2.errorMessage))))),
                by simp [strAppend_assoc]⟩⟩
          · have hrev : revokeJFrogAccessToken env cfg tid =
                ([Ev.revokeInvoked tid, Ev.getSecret, Ev.backendDelete tid,
                  Ev.logInfo ("Token: " ++ tid ++ " is successfully revoked")],
                 Res.ok ()) := by
              unfold revokeJFrogAccessToken fetchJFrogServiceCredentials
              rw [hfr]
              show (match env.revokeCall with
                | CallResult.transportErr m =>
                    ((Ev.revokeInvoked tid :: [Ev.getSecret]) ++ [Ev.backendDelete tid],
                     Res.err ("Resty client returned an error: " ++ m))
                | CallResult.response r3 =>
                  if 400 ≤ r3.status then
                    ((Ev.revokeInvoked tid :: [Ev.getSecret]) ++ [Ev.backendDelete tid],
                     Res.err ("JFrog returned an error: Status: " ++ toString r3.status
                       ++ ". Error: " ++ r3.errorMessage))
                  else
                    ((Ev.revokeInvoked tid :: [Ev.getSecret]) ++
                      [Ev.backendDelete tid,
                       Ev.logInfo ("Token: " ++ tid ++ " is successfully revoked")],
                     Res.ok ())) = _
              rw [hrc]
              show (if 400 ≤ r2.status then
                  ([Ev.revokeInvoked tid, Ev.getSecret] ++ [Ev.backendDelete tid],
                   Res.err ("JFrog returned an error: Status: " ++ toString r2.status
                     ++ ". Error: " ++ r2.errorMessage))
                else
                  ([Ev.revokeInvoked tid, Ev.getSecret] ++
                    [Ev.backendDelete tid,
                     Ev.logInfo ("Token: " ++ tid ++ " is successfully revoked")],
                   Res.ok ())) = _
              rw [if_neg hs2]
              rfl
            have hgen := hgenStep _ _ hrev
            rw [hgen]
            refine ⟨by simp [countRevoked], by simp, rfl, by simp [countReportFailed],
              fun hno => ⟨"JFrog access token with token id: " ++ (tid ++ " was revoked. "),
                by simp [strAppend_assoc]⟩⟩
  | apiKeyNotFound m2 =>
      have hrev : revokeJFrogAccessToken env cfg tid =
          ([Ev.revokeInvoked tid, Ev.getSecret,
            Ev.logError ("cannot call the secrets manager service: " ++ m2)],
           Res.exit 1) := by
        unfold revokeJFrogAccessToken fetchJFrogServiceCredentials
        rw [hfr]
      have hgen := hgenStep _ _ hrev
      rw [hgen]
      refine ⟨by simp [countRevoked], by simp, rfl, by simp [countReportFailed],
        fun hno => absurd rfl (hno m2)⟩
  | errOther m2 =>
      have hrev : revokeJFrogAccessToken env cfg tid =
          ([Ev.revokeInvoked tid, Ev.getSecret], Res.err m2) := by
        unfold revokeJFrogAccessToken fetchJFrogServiceCredentials
        rw [hfr]
      have hgen := hgenStep _ _ hrev
      rw [hgen]
      refine ⟨by simp [countRevoked], by simp, rfl, by simp [countReportFailed],
        fun hno => ⟨"cannot revoke the JFrog access token with token id: "
          ++ (tid ++ (". error: " ++ m2)), by simp [strAppend_assoc]⟩⟩
  | wrongType t2 =>
      have hrev : revokeJFrogAccessToken env cfg tid =
          ([Ev.revokeInvoked tid, Ev.getSecret],
           Res.err ("get secret id: " ++ cfg.SM_LOGIN_SECRET_ID
             ++ " returned unexpected secret type: " ++ t2
             ++ ", expected arbitrary type")) := by
        unfold revokeJFrogAccessToken fetchJFrogServiceCredentials
        rw [hfr]
      have hgen := hgenStep _ _ hrev
      rw [hgen]
      refine ⟨by simp [countRevoked], by simp, rfl, by simp [countReportFailed],
        fun hno => ⟨"cannot revoke the JFrog access token with token id: "
          ++ (tid ++ (". error: " ++ ("get secret id: " ++ (cfg.SM_LOGIN_SECRET_ID
            ++ (" returned unexpected secret type: " ++ (t2
              ++ ", expected arbitrary type")))))), by simp [strAppend_assoc]⟩⟩

/-- Counterexample to C1 as stated: a concrete run in which create
succeeds and the creation report fails ends with the rollback and a
non-zero exit but performs zero `report_failed` calls, while the claim
requires the final failure to be sent via `report_failed`. -/
theorem compensation_report_counterexample :
    (generateCredentials
        ⟨FetchOutcome.okSecret "p",
         CallResult.response ⟨200, "", Except.ok ("tok-1", "tid-1")⟩,
         some "boom",
         FetchOutcome.okSecret "p",
         CallResult.response ⟨204, "", Except.error "nb"⟩,
         none, none⟩
        ⟨"create_credentials", "ls", ""⟩).2 = 1 ∧
    countRevoked (generateCredentials
        ⟨FetchOutcome.okSecret "p",
         CallResult.response ⟨200, "", Except.ok ("tok-1", "tid-1")⟩,
         some "boom",
         FetchOutcome.okSecret "p",
         CallResult.response ⟨204, "", Except.error "nb"⟩,
         none, none⟩
        ⟨"create_credentials", "ls", ""⟩).1 = 1 ∧
    countReportFailed (generateCredentials
        ⟨FetchOutcome.okSecret "p",
         CallResult.response ⟨200, "", Except.ok ("tok-1", "tid-1")⟩,
         some "boom",
         FetchOutcome.okSecret "p",
         CallResult.response ⟨204, "", Except.error "nb"⟩,
         none, none⟩
        ⟨"create_credentials", "ls", ""⟩).1 = 0 := by
  refine ⟨rfl, rfl, rfl⟩

/-- Witness for C1 (amended theorem) at a concrete environment. -/
theorem compensation_rolls_back_without_report_witness :
    countRevoked (generateCredentials
        ⟨FetchOutcome.okSecret "p",
         CallResult.response ⟨200, "", Except.ok ("tok-1", "tid-1")⟩,
         some "boom",
         FetchOutcome.okSecret "p",
         CallResult.response ⟨204, "", Except.error "nb"⟩,
         none, none⟩
        ⟨"create_credentials", "ls", ""⟩).1 = 1 ∧
    Ev.revokeInvoked "tid-1" ∈ (generateCredentials
        ⟨FetchOutcome.okSecret "p",
         CallResult.response ⟨200, "", Except.ok ("tok-1", "tid-1")⟩,
         some "boom",
         FetchOutcome.okSecret "p",
         CallResult.response ⟨204, "", Except.error "nb"⟩,
         none, none⟩
        ⟨"create_credentials", "ls", ""⟩).1 ∧
    (generateCredentials
        ⟨FetchOutcome.okSecret "p",
         CallResult.response ⟨200, "", Except.ok ("tok-1", "tid-1")⟩,
         some "boom",
         FetchOutcome.okSecret "p",
         CallResult.response ⟨204, "", Except.error "nb"⟩,
         none, none⟩
        ⟨"create_credentials", "ls", ""⟩).2 = 1 ∧
    countReportFailed (generateCredentials
        ⟨FetchOutcome.okSecret "p",
         CallResult.response ⟨200, "", Except.ok ("tok-1", "tid-1")⟩,
         some "boom",
         FetchOutcome.okSecret "p",
         CallResult.response ⟨204, "", Except.error "nb"⟩,
         none, none⟩
        ⟨"create_credentials", "ls", ""⟩).1 = 0 ∧
    ((∀ m, (⟨FetchOutcome.okSecret "p",
         CallResult.response ⟨200, "", Except.ok ("tok-1", "tid-1")⟩,
         some "boom",
         FetchOutcome.okSecret "p",
         CallResult.response ⟨204, "", Except.error "nb"⟩,
         none, none⟩ : JFrogEnv).fetchRevoke ≠ FetchOutcome.apiKeyNotFound m) →
      ∃ rest, Ev.logError (("cannot update task: " ++ "boom") ++ rest)
        ∈ (generateCredentials
        ⟨FetchOutcome.okSecret "p",
         CallResult.response ⟨200, "", Except.ok ("tok-1", "tid-1")⟩,
         some "boom",
         FetchOutcome.okSecret "p",
         CallResult.response ⟨204, "", Except.error "nb"⟩,
         none, none⟩
        ⟨"create_credentials", "ls", ""⟩).1) :=
  compensation_rolls_back_without_report _ _ "p" ⟨200, "", Except.ok ("tok-1", "tid-1")⟩
    "tok-1" "tid-1" "boom" rfl rfl (by decide) rfl rfl

/-- C3 (amended): when fetching the referenced login secret fails on the
create path, no backend create call, no delete call and no revoke happen
and the run exits non-zero; the failure is reported via `report_failed`
except in the case of an error naming a missing Secrets Manager API key,
where the run exits with only a logged error and no report. -/
theorem fetch_failure_reporting (env : JFrogEnv) (cfg : Config)
    (h : ∀ p, env.fetchCreate ≠ FetchOutcome.okSecret p) :
    countPost (generateCredentials env cfg).1 = 0 ∧
    countDelete (generateCredentials env cfg).1 = 0 ∧
    countRevoked (generateCredentials env cfg).1 = 0 ∧
    (generateCredentials env cfg).2 = 1 ∧
    countReportFailed (generateCredentials env cfg).1 =
      (match env.fetchCreate with
       | FetchOutcome.apiKeyNotFound _ => 0
       | _ => 1) := by
  cases hf : env.fetchCreate with
  | okSecret p => exact absurd hf (h p)
  | apiKeyNotFound m =>
      have hgen : generateCredentials env cfg =
          ([Ev.getSecret, Ev.logError ("cannot call the secrets manager service: " ++ m)],
           1) := by
        unfold generateCredentials createJFrogAccessToken fetchJFrogServiceCredentials
        rw [hf]
      rw [hgen]
      exact ⟨by simp [countPost], by simp [countDelete], by simp [countRevoked], rfl,
        by simp [countReportFailed]⟩
  | errOther m =>
      cases hu : updateTaskAboutErrorAndExit Err10001 ("error: " ++ m)
          env.reportFailedCallErr with
      | mk tr2 cu =>
        obtain ⟨u1, u2, u3, u4, u5, u6, u7⟩ :=
          updateTaskAboutErrorAndExit_shape Err10001 ("error: " ++ m)
            env.reportFailedCallErr
        rw [hu] at u1 u2 u3 u4 u7
        have hgen : generateCredentials env cfg =
            ([Ev.getSecret] ++ Ev.logError ("error generating credentials: " ++ m) :: tr2,
             cu) := by
          unfold generateCredentials createJFrogAccessToken fetchJFrogServiceCredentials
          rw [hf]
          show (match updateTaskAboutErrorAndExit Err10001 ("error: " ++ m)
                  env.reportFailedCallErr with
                | (tr2, c) =>
                    ([Ev.getSecret] ++
                      Ev.logError ("error generating credentials: " ++ m) :: tr2, c)) = _
          rw [hu]
        rw [hgen]
        refine ⟨?_, ?_, ?_, u7, ?_⟩
        · simpa [countPost, List.countP_append, List.countP_cons] using u3
        · simpa [countDelete, List.countP_append, List.countP_cons] using u4
        · simpa [countRevoked, List.countP_append, List.countP_cons] using u2
        · simpa [countReportFailed, List.countP_append, List.countP_cons] using u1
  | wrongType t =>
      cases hu : updateTaskAboutErrorAndExit Err10001
          ("error: " ++ ("get secret id: " ++ cfg.SM_LOGIN_SECRET_ID
            ++ " returned unexpected secret type: " ++ t ++ ", expected arbitrary type"))
          env.reportFailedCallErr with
      | mk tr2 cu =>
        obtain ⟨u1, u2, u3, u4, u5, u6, u7⟩ :=
          updateTaskAboutErrorAndExit_shape Err10001
            ("error: " ++ ("get secret id: " ++ cfg.SM_LOGIN_SECRET_ID
              ++ " returned unexpected secret type: " ++ t ++ ", expected arbitrary type"))
            env.reportFailedCallErr
        rw [hu] at u1 u2 u3 u4 u7
        have hgen : generateCredentials env cfg =
            ([Ev.getSecret] ++
              Ev.logError ("error generating credentials: "
                ++ ("get secret id: " ++ cfg.SM_LOGIN_SECRET_ID
                  ++ " returned unexpected secret type: " ++ t
                  ++ ", expected arbitrary type")) :: tr2,
             cu) := by
          unfold generateCredentials createJFrogAccessToken fetchJFrogServiceCredentials
          rw [hf]
          show (match updateTaskAboutErrorAndExit Err10001
                  ("error: " ++ ("get secret id: " ++ cfg.SM_LOGIN_SECRET_ID
                    ++ " returned unexpected secret type: " ++ t
                    ++ ", expected arbitrary type"))
                  env.reportFailedCallErr with
                | (tr2, c) =>
                    ([Ev.getSecret] ++
                      Ev.logError ("error generating credentials: "
                        ++ ("get secret id: " ++ cfg.SM_LOGIN_SECRET_ID
                          ++ " returned unexpected secret type: " ++ t
                          ++ ", expected arbitrary type")) :: tr2, c)) = _
          rw [hu]
        rw [hgen]
        refine ⟨?_, ?_, ?_, u7, ?_⟩
        · simpa [countPost, List.countP_append, List.countP_cons] using u3
        · simpa [countDelete, List.countP_append, List.countP_cons] using u4
        · simpa [countRevoked, List.countP_append, List.countP_cons] using u2
        · simpa [countReportFailed, List.countP_append, List.countP_cons] using u1

/-- Counterexample to C3 as stated: a concrete run whose login-secret
fetch fails with an error naming a missing Secrets Manager API key exits
non-zero without any `report_failed` call (and without any backend
call), while the claim requires the failure to be reported via
`report_failed`. -/
theorem fetch_failure_report_counterexample :
    countPost (generateCredentials
        ⟨FetchOutcome.apiKeyNotFound "Provided API key could not be found",
         CallResult.transportErr "x", none,
         FetchOutcome.okSecret "p", CallResult.transportErr "x", none, none⟩
        ⟨"create_credentials", "ls", ""⟩).1 = 0 ∧
    countReportFailed (generateCredentials
        ⟨FetchOutcome.apiKeyNotFound "Provided API key could not be found",
         CallResult.transportErr "x", none,
         FetchOutcome.okSecret "p", CallResult.transportErr "x", none, none⟩
        ⟨"create_credentials", "ls", ""⟩).1 = 0 ∧
    (generateCredentials
        ⟨FetchOutcome.apiKeyNotFound "Provided API key could not be found",
         CallResult.transportErr "x", none,
         FetchOutcome.okSecret "p", CallResult.transportErr "x", none, none⟩
        ⟨"create_credentials", "ls", ""⟩).2 = 1 := by
  refine ⟨rfl, rfl, rfl⟩

/-- Witness for C3 (amended theorem) at a concrete environment whose
fetch fails with an ordinary error. -/
theorem fetch_failure_reporting_witness :
    countPost (generateCredentials
        ⟨FetchOutcome.errOther "secret not found",
         CallResult.transportErr "x", none,
         FetchOutcome.okSecret "p", CallResult.transportErr "x", none, none⟩
        ⟨"create_credentials", "ls", ""⟩).1 = 0 ∧
    countDelete (generateCredentials
        ⟨FetchOutcome.errOther "secret not found",
         CallResult.transportErr "x", none,
         FetchOutcome.okSecret "p", CallResult.transportErr "x", none, none⟩
        ⟨"create_credentials", "ls", ""⟩).1 = 0 ∧
    countRevoked (generateCredentials
        ⟨FetchOutcome.errOther "secret not found",
         CallResult.transportErr "x", none,
         FetchOutcome.okSecret "p", CallResult.transportErr "x", none, none⟩
        ⟨"create_credentials", "ls", ""⟩).1 = 0 ∧
    (generateCredentials
        ⟨FetchOutcome.errOther "secret not found",
         CallResult.transportErr "x", none,
         FetchOutcome.okSecret "p", CallResult.transportErr "x", none, none⟩
        ⟨"create_credentials", "ls", ""⟩).2 = 1 ∧
    countReportFailed (generateCredentials
        ⟨FetchOutcome.errOther "secret not found",
         CallResult.transportErr "x", none,
         FetchOutcome.okSecret "p", CallResult.transportErr "x", none, none⟩
        ⟨"create_credentials", "ls", ""⟩).1 =
      (match (⟨FetchOutcome.errOther "secret not found",
         CallResult.transportErr "x", none,
         FetchOutcome.okSecret "p", CallResult.transportErr "x", none, none⟩
           : JFrogEnv).fetchCreate with
       | FetchOutcome.apiKeyNotFound _ => 0
       | _ => 1) :=
  fetch_failure_reporting _ _ (fun p hp => FetchOutcome.noConfusion hp)

/-- C2 (amended): revoke on an identifier the backend does not know is a
no-op success for the IAM API-key backend (404/not-found from the unlock
probe) and for the Postgres role backend (existence check finds no row,
no further statement runs); the JFrog token revoke, by contrast, has no
not-found tolerance and returns an error whenever the delete response
carries an error status such as 404. -/
theorem idempotent_revoke_amended :
    (∀ (c : UnlockCall) (deleteErr : Option String),
        isApiKeyNotFound c.resp = true → DeleteApiKey c deleteErr = none) ∧
    (∀ (env : PGDeleteEnv) (st : PGState) (roleOID : Nat) (schemaName : String),
        env.beginErr = none → env.selectErr = none → lookupRolname st roleOID = none →
        deleteReadOnlyRole env st roleOID schemaName =
          (st, [PGOp.beginTx, PGOp.selectRolname roleOID, PGOp.rollbackTx], none)) ∧
    (∀ (env : JFrogEnv) (cfg : Config) (credId p : String) (r : JFrogResp),
        env.fetchRevoke = FetchOutcome.okSecret p →
        env.revokeCall = CallResult.response r →
        400 ≤ r.status →
        (revokeJFrogAccessToken env cfg credId).2 =
          Res.err ("JFrog returned an error: Status: " ++ toString r.status
            ++ ". Error: " ++ r.errorMessage)) := by
  refine ⟨?_, ?_, ?_⟩
  · intro c deleteErr hnf
    cases hresp : c.resp with
    | none => rw [hresp] at hnf; simp [isApiKeyNotFound] at hnf
    | some resp =>
        rw [hresp] at hnf
        have h404 : resp.status = 404 := by
          simp [isApiKeyNotFound] at hnf
          exact hnf.1
        unfold DeleteApiKey unlockApiKey
        rw [hresp]
        have hcond : (c.err.isNone &&
            (match some resp with
             | some r => r.status == 204
             | none => false)) = false := by
          simp [h404]
        rw [hcond]
        simp only [Bool.false_eq_true, if_false]
        rw [if_pos hnf]
  · intro env st roleOID schemaName hb hsel hlook
    unfold deleteReadOnlyRole
    rw [hb, hsel, hlook]
  · intro env cfg credId p r hfr hrc hs
    unfold revokeJFrogAccessToken fetchJFrogServiceCredentials
    rw [hfr]
    show ((match env.revokeCall with
      | CallResult.transportErr m =>
          ((Ev.revokeInvoked credId :: [Ev.getSecret]) ++ [Ev.backendDelete credId],
           Res.err ("Resty client returned an error: " ++ m))
      | CallResult.response r2 =>
        if 400 ≤ r2.status then
          ((Ev.revokeInvoked credId :: [Ev.getSecret]) ++ [Ev.backendDelete credId],
           Res.err ("JFrog returned an error: Status: " ++ toString r2.status
             ++ ". Error: " ++ r2.errorMessage))
        else
          ((Ev.revokeInvoked credId :: [Ev.getSecret]) ++
            [Ev.backendDelete credId,
             Ev.logInfo ("Token: " ++ credId ++ " is successfully revoked")],
           Res.ok ()))).2 = _
    rw [hrc]
    show (if 400 ≤ r.status then
        ((Ev.revokeInvoked credId :: [Ev.getSecret]) ++ [Ev.backendDelete credId],
         Res.err ("JFrog returned an error: Status: " ++ toString r.status
           ++ ". Error: " ++ r.errorMessage))
      else
        ((Ev.revokeInvoked credId :: [Ev.getSecret]) ++
          [Ev.backendDelete credId,
           Ev.logInfo ("Token: " ++ credId ++ " is successfully revoked")],
         Res.ok ())).2 = _
    rw [if_pos hs]

/-- Counterexample to C2 as stated: revoking an unknown token id through
the JFrog backend, whose server answers 404 with a not-found message,
returns an error instead of the success the claim requires. -/
theorem idempotent_revoke_counterexample :
    (revokeJFrogAccessToken
        ⟨FetchOutcome.okSecret "p", CallResult.transportErr "x", none,
         FetchOutcome.okSecret "p",
         CallResult.response ⟨404, "Token not found", Except.error "nb"⟩,
         none, none⟩
        ⟨"delete_credentials", "ls", "unknown-token-id"⟩ "unknown-token-id").2 =
      Res.err ("JFrog returned an error: Status: " ++ toString 404
        ++ ". Error: " ++ "Token not found") ∧
    (revokeJFrogAccessToken
        ⟨FetchOutcome.okSecret "p", CallResult.transportErr "x", none,
         FetchOutcome.okSecret "p",
         CallResult.response ⟨404, "Token not found", Except.error "nb"⟩,
         none, none⟩
        ⟨"delete_credentials", "ls", "unknown-token-id"⟩ "unknown-token-id").2 ≠
      Res.ok () := by
  refine ⟨rfl, by decide⟩

/-- Witness for C2 (amended theorem) at concrete inputs for the three
backends. -/
theorem idempotent_revoke_amended_witness :
    DeleteApiKey ⟨none, some ⟨404, true⟩⟩ (some "would fail") = none ∧
    deleteReadOnlyRole ⟨none, none, none, none, none⟩ ⟨[(11, "r1")]⟩ 7 "public" =
      (⟨[(11, "r1")]⟩, [PGOp.beginTx, PGOp.selectRolname 7, PGOp.rollbackTx], none) ∧
    (revokeJFrogAccessToken
        ⟨FetchOutcome.okSecret "p", CallResult.transportErr "x", none,
         FetchOutcome.okSecret "p",
         CallResult.response ⟨404, "nf", Except.error "nb"⟩, none, none⟩
        ⟨"delete_credentials", "ls", "tid-9"⟩ "tid-9").2 =
      Res.err ("JFrog returned an error: Status: " ++ toString 404
        ++ ". Error: " ++ "nf") :=
  ⟨idempotent_revoke_amended.1 ⟨none, some ⟨404, true⟩⟩ (some "would fail") (by decide),
   idempotent_revoke_amended.2.1 ⟨none, none, none, none, none⟩ ⟨[(11, "r1")]⟩ 7 "public"
     rfl rfl rfl,
   idempotent_revoke_amended.2.2 _ _ "tid-9" "p" ⟨404, "nf", Except.error "nb"⟩
     rfl rfl (by decide)⟩

/-- C6: `createReadOnlyRole` commits only after both grants succeed (a
successful result implies every step succeeded and exactly then is the
new role visible), and if either grant fails after the role was created
inside the transaction, the committed state is unchanged — no role is
visible — and the function returns a single error wrapping the grant
failure. -/
theorem transactional_create (env : PGCreateEnv) (st : PGState)
    (roleName password schemaName : String) :
    ((createReadOnlyRole env st roleName password schemaName).2.2.isOk = true →
      env.beginErr = none ∧ env.createRoleErr = none ∧ env.selectOidErr = none ∧
      env.grantUsageErr = none ∧ env.grantSelectErr = none ∧ env.commitErr = none ∧
      (createReadOnlyRole env st roleName password schemaName).1 =
        ⟨(env.newOid, roleName) :: st.roles⟩) ∧
    (∀ m, env.beginErr = none → env.createRoleErr = none → env.selectOidErr = none →
      (env.grantUsageErr = some m ∨
        (env.grantUsageErr = none ∧ env.grantSelectErr = some m)) →
      (createReadOnlyRole env st roleName password schemaName).1 = st ∧
      ∃ pre, (createReadOnlyRole env st roleName password schemaName).2.2 =
        Except.error (pre ++ m)) := by
  obtain ⟨b, c, so, oid, gu, gs, cm⟩ := env
  constructor
  · intro hOk
    cases b <;> cases c <;> cases so <;> cases gu <;> cases gs <;> cases cm <;>
      simp_all [createReadOnlyRole, Except.isOk, Except.toBool]
  · intro m hb hc hso hgrant
    subst hb
    subst hc
    subst hso
    rcases hgrant with hgu | ⟨hgu, hgs⟩
    · subst hgu
      exact ⟨rfl, ⟨"cannot grant role: " ++ toString oid ++ " usage on schema: "
        ++ schemaName ++ ". error: ", rfl⟩⟩
    · subst hgu
      subst hgs
      exact ⟨rfl, ⟨"cannot grant role: " ++ toString oid
        ++ " select on all tables in schema " ++ schemaName ++ ". error: ", rfl⟩⟩

/-- Witness for C6: with both grants failing in turn at concrete inputs,
the state is unchanged and the error wraps the grant failure; the
success implication is exercised at a fully succeeding environment. -/
theorem transactional_create_witness :
    ((none : Option String) = none ∧ (none : Option String) = none ∧
      (none : Option String) = none ∧ (none : Option String) = none ∧
      (none : Option String) = none ∧ (none : Option String) = none ∧
      (createReadOnlyRole ⟨none, none, none, 42, none, none, none⟩ ⟨[]⟩
        "r1" "pw" "public").1 = ⟨[(42, "r1")]⟩) ∧
    ((createReadOnlyRole ⟨none, none, none, 42, none, some "denied", none⟩ ⟨[]⟩
        "r1" "pw" "public").1 = ⟨[]⟩ ∧
      ∃ pre, (createReadOnlyRole ⟨none, none, none, 42, none, some "denied", none⟩ ⟨[]⟩
        "r1" "pw" "public").2.2 = Except.error (pre ++ "denied")) :=
  ⟨(transactional_create ⟨none, none, none, 42, none, none, none⟩ ⟨[]⟩
      "r1" "pw" "public").1 rfl,
   (transactional_create ⟨none, none, none, 42, none, some "denied", none⟩ ⟨[]⟩
      "r1" "pw" "public").2 "denied" rfl rfl rfl (Or.inr ⟨rfl, rfl⟩)⟩
